import Mathlib

/-!
Shallow embedding of the Progress Ledger and Approval/Procurement workflow
of dks-sles/erp-constructora (src/src/App.jsx).

Quantities are modelled as exact rationals (the spec's decimal semantics);
status strings, names and ids are kept as in the source. DB writes are
modelled as pure state transformers on the lists the application keeps in
client state (`dailyLogs`, `requisitions`, `boqItems`); a fallible network
call is modelled by a Boolean outcome parameter where a claim depends on it.
-/

namespace Erp

/-- One labor row of the daily-log form (App.jsx:3290-3293:
`{ role, count, hours }`). -/
structure LaborRow where
  role : String
  count : Nat
  hours : ℚ
deriving DecidableEq, Repr

/-- One material row of the daily-log form (App.jsx:3314-3318:
`{ name, qty, unit }`). -/
structure MaterialRow where
  name : String
  qty : ℚ
  unit : String
deriving DecidableEq, Repr

/-- One machinery row of the daily-log form (`{ name, hours }`). -/
structure MachineryRow where
  name : String
  hours : ℚ
deriving DecidableEq, Repr

/-- A BOQ line item as inserted by `createBoqItem` (App.jsx:2741-2753),
table `boq_items`. -/
structure BoqItem where
  id : String
  code : String
  description : String
  unit : String
  category : String
  total_metrado : ℚ
  unit_price : ℚ
deriving DecidableEq, Repr

/-- A daily log row as inserted by `createDailyLog` (App.jsx:2650-2664) and
updated by `updateLogStatus` (App.jsx:2680-2692), table `daily_logs`.
`reviewed_at` timestamps are modelled as naturals. -/
structure DailyLog where
  id : Nat
  boq_item_id : String
  foreman_id : String
  log_date : String
  quantity_executed : ℚ
  labor_json : List LaborRow
  materials_json : List MaterialRow
  machinery_json : List MachineryRow
  evidence_urls : List String
  notes : String
  status : String
  reviewed_by : Option String
  reviewed_at : Option Nat
  rejection_reason : Option String
deriving DecidableEq, Repr

/-- The object `handleSubmit` passes to `createDailyLog` (App.jsx:3413-3421).
The form marks the BOQ select and the quantity input `required`
(App.jsx:3486, 3517), so at submit time both carry a value;
`quantityExecuted` is the parsed numeric value (`parseFloat`,
App.jsx:3416). -/
structure LogData where
  boqItemId : String
  date : String
  quantityExecuted : ℚ
  notes : String
  labor : List LaborRow
  materials : List MaterialRow
  machinery : List MachineryRow
deriving DecidableEq, Repr

/-- Sum of `quantity_executed` over the daily logs of one BOQ item with one
status (App.jsx:3376-3382: `filter(...).reduce((sum, l) => sum +
l.quantity_executed, 0)`). -/
def sumQty (dailyLogs : List DailyLog) (itemId status : String) : ℚ :=
  ((dailyLogs.filter fun l => l.boq_item_id == itemId && l.status == status).map
    fun l => l.quantity_executed).sum

/-- Result of `validateQuantity` (App.jsx:3370-3395): `valid` carries the
optional `remaining` field; `notFound` is the `{ valid: false, message:
'Partida no encontrada' }` branch; `overBudget` the `'Error: Mayor
Metrado...'` branch, carrying the interpolated quantities. -/
inductive QuantityValidation where
  | valid (remaining : Option ℚ)
  | notFound
  | overBudget (totalAfterNew : ℚ) (totalMetrado : ℚ)
deriving DecidableEq, Repr

/-- The `.valid` field of the object `validateQuantity` returns. -/
def QuantityValidation.isValid : QuantityValidation → Bool
  | .valid _ => true
  | _ => false

/-- `validateQuantity` (ForemanModule, App.jsx:3370-3395). The two form
fields are `Option`s: `none` models the empty string (falsy in
`!formData.boqItemId || !formData.quantityExecuted`). -/
def validateQuantity (boqItems : List BoqItem) (dailyLogs : List DailyLog)
    (boqItemId : Option String) (quantityExecuted : Option ℚ) :
    QuantityValidation :=
  match boqItemId, quantityExecuted with
  | none, _ => .valid none
  | _, none => .valid none
  | some itemId, some newQty =>
    match boqItems.find? fun b => b.id == itemId with
    | none => .notFound
    | some boqItem =>
      let approvedQty := sumQty dailyLogs itemId "approved"
      let pendingQty := sumQty dailyLogs itemId "pending"
      let totalAfterNew := approvedQty + pendingQty + newQty
      if totalAfterNew > boqItem.total_metrado then
        .overBudget totalAfterNew boqItem.total_metrado
      else
        .valid (some (boqItem.total_metrado - totalAfterNew))

/-- `createDailyLog` (AppProvider, App.jsx:2641-2677): a single insert into
`daily_logs` with `status: 'pending'`; the fresh row id is a parameter
(the DB generates it). -/
def createDailyLog (dailyLogs : List DailyLog) (newId : Nat)
    (foremanId : String) (logData : LogData) (evidenceUrl : Option String) :
    List DailyLog :=
  dailyLogs ++ [{
    id := newId
    boq_item_id := logData.boqItemId
    foreman_id := foremanId
    log_date := logData.date
    quantity_executed := logData.quantityExecuted
    labor_json := logData.labor
    materials_json := logData.materials
    machinery_json := logData.machinery
    evidence_urls := match evidenceUrl with | some u => [u] | none => []
    notes := logData.notes
    status := "pending"
    reviewed_by := none
    reviewed_at := none
    rejection_reason := none }]

/-- Outcome of the daily-log `handleSubmit`: the early return on failed
validation (App.jsx:3404-3408), or a created log. -/
inductive SubmitResult where
  | rejectedValidation (v : QuantityValidation)
  | submitted
deriving DecidableEq, Repr

/-- `handleSubmit` (ForemanModule, App.jsx:3401-3441): validates, and on
success inserts the log via `createDailyLog`; on failed validation it only
toasts and returns, mutating nothing. -/
def handleSubmit (boqItems : List BoqItem) (dailyLogs : List DailyLog)
    (foremanId : String) (fd : LogData) (evidenceUrl : Option String)
    (newId : Nat) : SubmitResult × List DailyLog :=
  let validation :=
    validateQuantity boqItems dailyLogs (some fd.boqItemId) (some fd.quantityExecuted)
  if validation.isValid then
    (.submitted, createDailyLog dailyLogs newId foremanId fd evidenceUrl)
  else
    (.rejectedValidation validation, dailyLogs)

/-- `updateLogStatus` (AppProvider, App.jsx:2680-2692): one unconditional
update of the row with the given id, setting `status`, `reviewed_by`,
`reviewed_at` and `rejection_reason`; the current status is not read. -/
def updateLogStatus (dailyLogs : List DailyLog) (logId : Nat) (status : String)
    (userId : String) (now : Nat) (rejectionReason : Option String) :
    List DailyLog :=
  dailyLogs.map fun l =>
    if l.id == logId then
      { l with status := status, reviewed_by := some userId,
               reviewed_at := some now, rejection_reason := rejectionReason }
    else l

/-- `pendingLogs` (EngineerModule, App.jsx:3858): the only logs the review
screen renders approve/reject buttons for (App.jsx:3968-4022). -/
def pendingLogs (dailyLogs : List DailyLog) : List DailyLog :=
  dailyLogs.filter fun l => l.status == "pending"

/-- `handleApproveLog` (EngineerModule, App.jsx:3863-3870). -/
def handleApproveLog (dailyLogs : List DailyLog) (logId : Nat)
    (userId : String) (now : Nat) : List DailyLog :=
  updateLogStatus dailyLogs logId "approved" userId now none

/-- `handleRejectLog` (EngineerModule, App.jsx:3872-3882): `prompt` may be
cancelled (`none`) or return a string; only a truthy (non-empty) reason
triggers the update. -/
def handleRejectLog (dailyLogs : List DailyLog) (logId : Nat)
    (userId : String) (now : Nat) (reason : Option String) : List DailyLog :=
  match reason with
  | none => dailyLogs
  | some r =>
    if r == "" then dailyLogs
    else updateLogStatus dailyLogs logId "rejected" userId now (some r)

/-- The structured evidence object `handlePurchase` stores under
`evidence_urls` (App.jsx:4332-4336). -/
structure EvidenceUrls where
  factura : Option String
  guia_remision : Option String
  foto_material : Option String
deriving DecidableEq, Repr

/-- A requisition row as inserted by `createRequisition` (App.jsx:2695-2715)
and updated by `updateRequisitionStatus` (App.jsx:2718-2738), table
`requisitions`. Timestamps are naturals. -/
structure Requisition where
  id : Nat
  material_id : Option String
  item_name : String
  item_description : Option String
  quantity : ℚ
  unit : String
  urgency : String
  requested_by : String
  request_notes : String
  status : String
  approved_by : Option String
  approved_at : Option Nat
  purchased_by : Option String
  purchased_at : Option Nat
  received_by : Option String
  received_at : Option Nat
  evidence_urls : Option EvidenceUrls
deriving DecidableEq, Repr

/-- The requisition form state `reqForm` (EngineerModule, App.jsx:3845-3852).
`materialId` is the select value (empty = `none`); `quantity` the numeric
value of the `required` input with `min` 1 (App.jsx:4156-4161). -/
structure ReqForm where
  materialId : Option String
  itemName : String
  quantity : ℚ
  unit : String
  urgency : String
  notes : String
deriving DecidableEq, Repr

/-- `createRequisition` (AppProvider, App.jsx:2695-2715): one insert with
`status: 'pending_pm'`; no field of the input is validated here.
`item_description` is inserted from `reqData.description`, which the form
never sets (App.jsx:3845-3852), hence `none`. -/
def createRequisition (requisitions : List Requisition) (newId : Nat)
    (userId : String) (reqData : ReqForm) : List Requisition :=
  requisitions ++ [{
    id := newId
    material_id := reqData.materialId
    item_name := reqData.itemName
    item_description := none
    quantity := reqData.quantity
    unit := reqData.unit
    urgency := reqData.urgency
    requested_by := userId
    request_notes := reqData.notes
    status := "pending_pm"
    approved_by := none
    approved_at := none
    purchased_by := none
    purchased_at := none
    received_by := none
    received_at := none
    evidence_urls := none }]

/-- The per-row update object of `updateRequisitionStatus`
(App.jsx:2719-2730): `{ status, ...additionalData }` plus the actor and
timestamp pair chosen by the status branch. `evidence` models the only
`additionalData` the callers pass (`evidence_urls`, App.jsx:4331-4337);
`none` leaves the stored value in place. -/
def applyStatusUpdate (status userId : String) (now : Nat)
    (evidence : Option EvidenceUrls) (r : Requisition) : Requisition :=
  let r1 := { r with
    status := status
    evidence_urls := match evidence with | some e => some e | none => r.evidence_urls }
  if status == "approved" || status == "to_buy" then
    { r1 with approved_by := some userId, approved_at := some now }
  else if status == "in_transit" then
    { r1 with purchased_by := some userId, purchased_at := some now }
  else if status == "received" || status == "completed" then
    { r1 with received_by := some userId, received_at := some now }
  else r1

/-- `updateRequisitionStatus` (AppProvider, App.jsx:2718-2738): one
unconditional update of the row with the given id; the row's current
status is never read. -/
def updateRequisitionStatus (requisitions : List Requisition) (reqId : Nat)
    (status userId : String) (now : Nat) (evidence : Option EvidenceUrls) :
    List Requisition :=
  requisitions.map fun r =>
    if r.id == reqId then applyStatusUpdate status userId now evidence r else r

/-- `toBuyReqs` (LogisticsModule, App.jsx:4320): the only requisitions the
purchase screen offers the purchase action for. -/
def toBuyReqs (requisitions : List Requisition) : List Requisition :=
  requisitions.filter fun r => r.status == "to_buy"

/-- `inTransitReqs` (LogisticsModule, App.jsx:4321). -/
def inTransitReqs (requisitions : List Requisition) : List Requisition :=
  requisitions.filter fun r => r.status == "in_transit"

/-- `completedReqs` (LogisticsModule, App.jsx:4322). -/
def completedReqs (requisitions : List Requisition) : List Requisition :=
  requisitions.filter fun r => r.status == "completed" || r.status == "received"

/-- The upload-modal checkboxes `documents` (LogisticsModule,
App.jsx:4318). -/
structure Documents where
  factura : Bool
  guia : Bool
  foto : Bool
deriving DecidableEq, Repr

/-- Outcome of `handlePurchase`: `missingRequiredEvidence` is the early
return toasting `'La factura es requerida'` (App.jsx:4325-4328). -/
inductive PurchaseResult where
  | missingRequiredEvidence
  | recorded
deriving DecidableEq, Repr

/-- `handlePurchase` (LogisticsModule, App.jsx:4324-4344): requires the
invoice checkbox, then records the purchase as status `'in_transit'` with
the evidence object; the file names embed `Date.now()`, modelled by
`now`. -/
def handlePurchase (requisitions : List Requisition) (reqId : Nat)
    (userId : String) (now : Nat) (documents : Documents) :
    PurchaseResult × List Requisition :=
  if !documents.factura then
    (.missingRequiredEvidence, requisitions)
  else
    (.recorded, updateRequisitionStatus requisitions reqId "in_transit" userId now
      (some {
        factura := if documents.factura then some ("FAC-" ++ toString now ++ ".pdf") else none
        guia_remision := if documents.guia then some ("GR-" ++ toString now ++ ".pdf") else none
        foto_material := if documents.foto then some ("FOTO-" ++ toString now ++ ".jpg") else none }))

/-- `handleConfirmReceived` (EngineerModule, App.jsx:3902-3909). -/
def handleConfirmReceived (requisitions : List Requisition) (reqId : Nat)
    (userId : String) (now : Nat) : List Requisition :=
  updateRequisitionStatus requisitions reqId "completed" userId now none

/-- The client state the progress-ledger operations read and write
(AppProvider, App.jsx:2345: `boqItems`, `dailyLogs`). -/
structure EngineState where
  boqItems : List BoqItem
  dailyLogs : List DailyLog
deriving DecidableEq, Repr

/-- Sum of approved plus pending executed quantity of one BOQ item, the
quantity the budget invariant bounds. -/
def apSum (dailyLogs : List DailyLog) (itemId : String) : ℚ :=
  sumQty dailyLogs itemId "approved" + sumQty dailyLogs itemId "pending"

/-- The contribution of one log to `sumQty` of one item and status. -/
def contrib (itemId status : String) (l : DailyLog) : ℚ :=
  if l.boq_item_id == itemId && l.status == status then l.quantity_executed else 0

/-- The contribution of one log to `apSum` of one item. -/
def contribAP (itemId : String) (l : DailyLog) : ℚ :=
  contrib itemId "approved" l + contrib itemId "pending" l

/-- One user-triggerable mutation of the ledger state, as the application
exposes it:
* `submit` runs the daily-log form submission (`handleSubmit`,
  App.jsx:3401). The quantity input carries `min` 0 (App.jsx:3518), hence
  `hq`; the inserted row id is DB-generated, hence fresh (`hfresh`).
* `approve` and `reject` run the review actions (`handleApproveLog`,
  `handleRejectLog`, App.jsx:3863-3882); the review screen renders those
  buttons only over `pendingLogs` (App.jsx:3968-4022), hence `hmem`. -/
inductive Step : EngineState → EngineState → Prop where
  | submit (s : EngineState) (foremanId : String) (fd : LogData)
      (evidenceUrl : Option String) (newId : Nat)
      (hq : 0 ≤ fd.quantityExecuted)
      (hfresh : ∀ l ∈ s.dailyLogs, l.id ≠ newId) :
      Step s { s with
        dailyLogs := (handleSubmit s.boqItems s.dailyLogs foremanId fd evidenceUrl newId).2 }
  | approve (s : EngineState) (log : DailyLog) (userId : String) (now : Nat)
      (hmem : log ∈ pendingLogs s.dailyLogs) :
      Step s { s with dailyLogs := handleApproveLog s.dailyLogs log.id userId now }
  | reject (s : EngineState) (log : DailyLog) (userId : String) (now : Nat)
      (reason : Option String)
      (hmem : log ∈ pendingLogs s.dailyLogs) :
      Step s { s with dailyLogs := handleRejectLog s.dailyLogs log.id userId now reason }

/-- States reachable through any sequence of submissions, approvals and
rejections. -/
def Reachable : EngineState → EngineState → Prop :=
  Relation.ReflTransGen Step

/-- The inductive well-formedness of a ledger state: row ids are unique (DB
primary keys), executed quantities are non-negative (the form's `min` 0),
and every item satisfies the budget invariant. -/
structure GoodState (s : EngineState) : Prop where
  items_nodup : (s.boqItems.map fun b => b.id).Nodup
  logs_nodup : (s.dailyLogs.map fun l => l.id).Nodup
  qty_nonneg : ∀ l ∈ s.dailyLogs, 0 ≤ l.quantity_executed
  budget : ∀ item ∈ s.boqItems, apSum s.dailyLogs item.id ≤ item.total_metrado

end Erp

/-!
The older foreman flow (`ForemanModule` at App.jsx:617, tables
`daily_reports` and `partidas`): a daily report is one insert followed by a
separate, unguarded update of the partida's running progress
(App.jsx:794-822).
-/

namespace ErpLegacy

/-- A `partidas` row as read by the legacy foreman module (App.jsx:742:
`current_progress`, `total_budgeted`). -/
structure Partida where
  id : Nat
  current_progress : ℚ
  total_budgeted : ℚ
deriving DecidableEq, Repr

/-- A `daily_reports` row, reduced to the fields the two-step write touches
(App.jsx:797-809). -/
structure DailyReport where
  id : Nat
  partida_id : Nat
  progress_value : ℚ
deriving DecidableEq, Repr

/-- The stored state the legacy submission mutates: the `daily_reports`
table and the `partidas` table. -/
structure State where
  daily_reports : List DailyReport
  partidas : List Partida
deriving DecidableEq, Repr

/-- `validateSubmission` (App.jsx:732-757): requires a selected partida,
the budget bound, and at least one valid labor row (the latter abstracted
to a Boolean). -/
def validateSubmission (selectedPartida : Option Partida) (progress : ℚ)
    (validLabor : Bool) : Bool :=
  match selectedPartida with
  | none => false
  | some p =>
    if p.current_progress + progress > p.total_budgeted then false
    else validLabor

/-- `handleSubmit` (App.jsx:759-846): after validation, an insert into
`daily_reports` and then a separate update of `partidas.current_progress`;
each network call may fail (`insertOk`, `updateOk`), and a failure throws,
leaving whatever was already written in place. The progress written is the
snapshot value `selectedPartida.current_progress + progress`
(App.jsx:816). -/
def handleSubmit (st : State) (selectedPartida : Option Partida)
    (progress : ℚ) (validLabor : Bool) (newReportId : Nat)
    (insertOk updateOk : Bool) : State :=
  if !(validateSubmission selectedPartida progress validLabor) then st
  else
    match selectedPartida with
    | none => st
    | some p =>
      if !insertOk then st
      else
        let st1 : State := { st with daily_reports := st.daily_reports ++
          [{ id := newReportId, partida_id := p.id, progress_value := progress }] }
        if !updateOk then st1
        else { st1 with partidas := st1.partidas.map fun q =>
          if q.id == p.id then { q with current_progress := p.current_progress + progress }
          else q }

end ErpLegacy

namespace Erp

/-- Sample BOQ item: Scenario A of the spec, budget 50. -/
def sampleItem : BoqItem :=
  { id := "b1", code := "01.01", description := "Excavacion manual",
    unit := "m3", category := "estructuras", total_metrado := 50,
    unit_price := 10 }

/-- Sample pending daily log of 30 units against `sampleItem`. -/
def samplePendingLog : DailyLog :=
  { id := 1, boq_item_id := "b1", foreman_id := "f1",
    log_date := "2026-01-01", quantity_executed := 30, labor_json := [],
    materials_json := [], machinery_json := [], evidence_urls := [],
    notes := "", status := "pending", reviewed_by := none,
    reviewed_at := none, rejection_reason := none }

/-- Sample already-approved daily log against `sampleItem`. -/
def sampleApprovedLog : DailyLog :=
  { samplePendingLog with
    id := 2, status := "approved",
    reviewed_by := some "e1", reviewed_at := some 3 }

/-- Sample daily-log form data against `sampleItem` with a given quantity. -/
def sampleFd (q : ℚ) : LogData :=
  { boqItemId := "b1", date := "2026-01-02", quantityExecuted := q,
    notes := "", labor := [], materials := [], machinery := [] }

/-- Sample requisition in a given status. -/
def sampleReq (st : String) : Requisition :=
  { id := 1, material_id := none, item_name := "Cemento",
    item_description := none, quantity := 10, unit := "BLS",
    urgency := "medium", requested_by := "e1", request_notes := "",
    status := st, approved_by := none, approved_at := none,
    purchased_by := none, purchased_at := none, received_by := none,
    received_at := none, evidence_urls := none }

/-- Sample requisition form input with a given quantity. -/
def sampleReqForm (q : ℚ) : ReqForm :=
  { materialId := none, itemName := "Cemento", quantity := q, unit := "BLS",
    urgency := "medium", notes := "" }

/-- Initial ledger state: `sampleItem`, no logs yet. -/
def sampleState : EngineState :=
  { boqItems := [sampleItem], dailyLogs := [] }

/-- Ledger state of Scenario A after the first submission: one pending log
of 30 against a budget of 50. -/
def scenarioAState : EngineState :=
  { boqItems := [sampleItem], dailyLogs := [samplePendingLog] }

end Erp

namespace ErpLegacy

/-- Sample partida with budget 50 and no progress yet. -/
def samplePartida : Partida :=
  { id := 1, current_progress := 0, total_budgeted := 50 }

/-- Sample legacy state: one partida, no reports. -/
def sampleLegacyState : State :=
  { daily_reports := [], partidas := [samplePartida] }

end ErpLegacy

/-!
## Helper lemmas
Bookkeeping about `sumQty`/`apSum` under the three mutations.
-/

namespace Erp

/-- `sumQty` as a sum of pointwise contributions. -/
theorem sumQty_eq_sum_map (dailyLogs : List DailyLog) (itemId status : String) :
    sumQty dailyLogs itemId status
      = (dailyLogs.map (contrib itemId status)).sum := by
  induction dailyLogs with
  | nil => rfl
  | cons l ls ih =>
    unfold sumQty at ih ⊢
    rw [List.filter_cons]
    by_cases h : (l.boq_item_id == itemId && l.status == status) = true
    · simp only [h, if_true, List.map_cons, List.sum_cons, contrib, ih]
    · simp only [h, if_false, List.map_cons, List.sum_cons, contrib, ih,
        Bool.false_eq_true, zero_add]

/-- Sums of two pointwise maps combine. -/
theorem sum_map_add_distrib (xs : List DailyLog) (f g : DailyLog → ℚ) :
    (xs.map f).sum + (xs.map g).sum = (xs.map fun x => f x + g x).sum := by
  induction xs with
  | nil => simp
  | cons x xs ih =>
    simp only [List.map_cons, List.sum_cons]
    linarith

/-- `apSum` as a sum of pointwise contributions. -/
theorem apSum_eq_sum_map (dailyLogs : List DailyLog) (itemId : String) :
    apSum dailyLogs itemId = (dailyLogs.map (contribAP itemId)).sum := by
  unfold apSum
  rw [sumQty_eq_sum_map, sumQty_eq_sum_map, sum_map_add_distrib]
  rfl

/-- `apSum` distributes over append. -/
theorem apSum_append (xs ys : List DailyLog) (itemId : String) :
    apSum (xs ++ ys) itemId = apSum xs itemId + apSum ys itemId := by
  unfold apSum sumQty
  rw [List.filter_append, List.filter_append, List.map_append,
    List.map_append, List.sum_append, List.sum_append]
  ring

/-- A log with non-negative quantity contributes non-negatively. -/
theorem contribAP_nonneg (itemId : String) (l : DailyLog)
    (h : 0 ≤ l.quantity_executed) : 0 ≤ contribAP itemId l := by
  unfold contribAP contrib
  split <;> split <;> linarith

/-- `updateLogStatus` does not change row ids. -/
theorem updateLogStatus_map_id (dailyLogs : List DailyLog) (logId : Nat)
    (status userId : String) (now : Nat) (rr : Option String) :
    (updateLogStatus dailyLogs logId status userId now rr).map (fun l => l.id)
      = dailyLogs.map fun l => l.id := by
  unfold updateLogStatus
  rw [List.map_map]
  apply List.map_congr_left
  intro l _
  by_cases h : (l.id == logId) = true <;> simp [Function.comp, h]

/-- `updateLogStatus` does not change quantities. -/
theorem updateLogStatus_qty (dailyLogs : List DailyLog) (logId : Nat)
    (status userId : String) (now : Nat) (rr : Option String) :
    ∀ l2 ∈ updateLogStatus dailyLogs logId status userId now rr,
      ∃ l ∈ dailyLogs, l2.quantity_executed = l.quantity_executed := by
  intro l2 hl2
  unfold updateLogStatus at hl2
  obtain ⟨l, hl, hmap⟩ := List.mem_map.1 hl2
  refine ⟨l, hl, ?_⟩
  by_cases h : (l.id == logId) = true <;> simp [h] at hmap <;> rw [← hmap]

/-- Approving a log that is (together with every log sharing its id)
pending moves its quantity from the pending to the approved sum: `apSum`
is unchanged. -/
theorem apSum_update_approved (dailyLogs : List DailyLog) (logId : Nat)
    (userId : String) (now : Nat) (itemId : String)
    (hall : ∀ l ∈ dailyLogs, l.id = logId → l.status = "pending") :
    apSum (updateLogStatus dailyLogs logId "approved" userId now none) itemId
      = apSum dailyLogs itemId := by
  rw [apSum_eq_sum_map, apSum_eq_sum_map]
  unfold updateLogStatus
  rw [List.map_map]
  apply congrArg
  apply List.map_congr_left
  intro l hl
  by_cases h : (l.id == logId) = true
  · have hst : l.status = "pending" := hall l hl (by simpa using h)
    simp [Function.comp, h, contribAP, contrib, hst]
  · simp [Function.comp, h]

/-- Rejecting a log that is (together with every log sharing its id)
pending removes its non-negative quantity from the pending sum: `apSum`
does not increase. -/
theorem apSum_update_rejected_le (dailyLogs : List DailyLog) (logId : Nat)
    (userId : String) (now : Nat) (rr : Option String) (itemId : String)
    (hall : ∀ l ∈ dailyLogs, l.id = logId → l.status = "pending")
    (hq : ∀ l ∈ dailyLogs, 0 ≤ l.quantity_executed) :
    apSum (updateLogStatus dailyLogs logId "rejected" userId now rr) itemId
      ≤ apSum dailyLogs itemId := by
  rw [apSum_eq_sum_map, apSum_eq_sum_map]
  unfold updateLogStatus
  rw [List.map_map]
  apply List.sum_le_sum
  intro l hl
  by_cases h : (l.id == logId) = true
  · have hst : l.status = "pending" := hall l hl (by simpa using h)
    have hq2 := hq l hl
    simp [Function.comp, h, contribAP, contrib, hst]
    split <;> linarith
  · simp [Function.comp, h]

end Erp

namespace Erp

/-- `isValid` on the `valid` constructor. -/
theorem isValid_valid (r : Option ℚ) :
    (QuantityValidation.valid r).isValid = true := rfl

/-- `isValid` on the `notFound` constructor. -/
theorem isValid_notFound : QuantityValidation.notFound.isValid = false := rfl

/-- `isValid` on the `overBudget` constructor. -/
theorem isValid_overBudget (tn tm : ℚ) :
    (QuantityValidation.overBudget tn tm).isValid = false := rfl

/-- The ids of the rows after `createDailyLog`: the old ids plus the fresh
one. -/
theorem createDailyLog_map_id (dailyLogs : List DailyLog) (newId : Nat)
    (foremanId : String) (logData : LogData) (evidenceUrl : Option String) :
    (createDailyLog dailyLogs newId foremanId logData evidenceUrl).map
        (fun l => l.id)
      = (dailyLogs.map fun l => l.id) ++ [newId] := by
  simp [createDailyLog]

/-- A row of `createDailyLog`'s result is an old row or carries the
submitted quantity. -/
theorem createDailyLog_mem (dailyLogs : List DailyLog) (newId : Nat)
    (foremanId : String) (logData : LogData) (evidenceUrl : Option String) :
    ∀ l ∈ createDailyLog dailyLogs newId foremanId logData evidenceUrl,
      l ∈ dailyLogs ∨ l.quantity_executed = logData.quantityExecuted := by
  intro l hl
  rcases List.mem_append.1 hl with h | h
  · exact Or.inl h
  · right
    simp at h
    rw [h]

/-- `apSum` after `createDailyLog`: the new pending row adds its quantity
to its own item and nothing to any other. -/
theorem apSum_createDailyLog (dailyLogs : List DailyLog) (newId : Nat)
    (foremanId : String) (logData : LogData) (evidenceUrl : Option String)
    (itemId : String) :
    apSum (createDailyLog dailyLogs newId foremanId logData evidenceUrl) itemId
      = apSum dailyLogs itemId
        + (if logData.boqItemId == itemId then logData.quantityExecuted else 0) := by
  unfold createDailyLog
  rw [apSum_append]
  congr 1
  simp [apSum_eq_sum_map, contribAP, contrib]

/-- A `valid` verdict of `validateQuantity` on fully-filled form data means
the item was found and the budget comparison passed. -/
theorem validateQuantity_valid_bound (boqItems : List BoqItem)
    (dailyLogs : List DailyLog) (itemId : String) (q : ℚ) (r : Option ℚ)
    (hv : validateQuantity boqItems dailyLogs (some itemId) (some q) = .valid r) :
    ∃ boqItem, boqItems.find? (fun b => b.id == itemId) = some boqItem ∧
      sumQty dailyLogs itemId "approved" + sumQty dailyLogs itemId "pending" + q
        ≤ boqItem.total_metrado := by
  simp only [validateQuantity] at hv
  cases hfind : boqItems.find? fun b => b.id == itemId with
  | none => rw [hfind] at hv; simp at hv
  | some boqItem =>
    rw [hfind] at hv
    simp only at hv
    refine ⟨boqItem, rfl, ?_⟩
    by_cases hcmp : sumQty dailyLogs itemId "approved"
        + sumQty dailyLogs itemId "pending" + q > boqItem.total_metrado
    · rw [if_pos hcmp] at hv; simp at hv
    · linarith

/-- Every log of the review screen's pending list, together with every log
sharing its id, has status `'pending'` (given unique row ids). -/
theorem allPending_of_mem_pendingLogs {s : EngineState} (hg : GoodState s)
    {log : DailyLog} (hmem : log ∈ pendingLogs s.dailyLogs) :
    ∀ l ∈ s.dailyLogs, l.id = log.id → l.status = "pending" := by
  have hmem2 := List.mem_filter.1 hmem
  intro l hl hid
  have heq : l = log :=
    List.inj_on_of_nodup_map hg.logs_nodup hl hmem2.1 hid
  rw [heq]
  simpa using hmem2.2

/-- Every application-exposed mutation preserves well-formedness, and with
it the budget invariant. -/
theorem goodState_step {s s2 : EngineState} (hstep : Step s s2)
    (hg : GoodState s) : GoodState s2 := by
  cases hstep with
  | submit foremanId fd evidenceUrl newId hq hfresh =>
    cases hv : validateQuantity s.boqItems s.dailyLogs (some fd.boqItemId)
        (some fd.quantityExecuted) with
    | notFound =>
      have h2 : (handleSubmit s.boqItems s.dailyLogs foremanId fd evidenceUrl
          newId).2 = s.dailyLogs := by
        simp [handleSubmit, hv, isValid_notFound]
      rw [h2]
      exact hg
    | overBudget tn tm =>
      have h2 : (handleSubmit s.boqItems s.dailyLogs foremanId fd evidenceUrl
          newId).2 = s.dailyLogs := by
        simp [handleSubmit, hv, isValid_overBudget]
      rw [h2]
      exact hg
    | valid r =>
      obtain ⟨boqItem, hfind, hle⟩ :=
        validateQuantity_valid_bound s.boqItems s.dailyLogs fd.boqItemId
          fd.quantityExecuted r hv
      have h2 : (handleSubmit s.boqItems s.dailyLogs foremanId fd evidenceUrl
          newId).2 = createDailyLog s.dailyLogs newId foremanId fd evidenceUrl := by
        simp [handleSubmit, hv, isValid_valid]
      rw [h2]
      constructor
      · exact hg.items_nodup
      · show ((createDailyLog s.dailyLogs newId foremanId fd evidenceUrl).map
          fun l => l.id).Nodup
        rw [createDailyLog_map_id, List.nodup_append]
        refine ⟨hg.logs_nodup, by simp, ?_⟩
        intro a ha ha2
        simp at ha2
        obtain ⟨l, hl, hid⟩ := List.mem_map.1 ha
        exact hfresh l hl (by rw [hid, ha2])
      · intro l hl
        rcases createDailyLog_mem s.dailyLogs newId foremanId fd evidenceUrl
          l hl with h | h
        · exact hg.qty_nonneg l h
        · rw [h]; exact hq
      · intro item hitem
        show apSum (createDailyLog s.dailyLogs newId foremanId fd evidenceUrl)
          item.id ≤ item.total_metrado
        rw [apSum_createDailyLog]
        by_cases hid : fd.boqItemId = item.id
        · have hbmem := List.mem_of_find?_eq_some hfind
          have hbid : boqItem.id = fd.boqItemId := by
            simpa using List.find?_some hfind
          have heq : boqItem = item :=
            List.inj_on_of_nodup_map hg.items_nodup hbmem hitem
              (by rw [hbid, hid])
          rw [if_pos (by simpa using hid), ← hid]
          have h3 : apSum s.dailyLogs fd.boqItemId
              + fd.quantityExecuted ≤ boqItem.total_metrado := by
            unfold apSum
            linarith
          rw [← heq]
          exact h3
        · rw [if_neg (by simpa using hid), add_zero]
          exact hg.budget item hitem
  | approve log userId now hmem =>
    have hall := allPending_of_mem_pendingLogs hg hmem
    constructor
    · exact hg.items_nodup
    · show ((updateLogStatus s.dailyLogs log.id "approved" userId now none).map
        fun l => l.id).Nodup
      rw [updateLogStatus_map_id]
      exact hg.logs_nodup
    · intro l2 hl2
      obtain ⟨l, hl, he⟩ := updateLogStatus_qty s.dailyLogs log.id "approved"
        userId now none l2 hl2
      rw [he]
      exact hg.qty_nonneg l hl
    · intro item hitem
      show apSum (updateLogStatus s.dailyLogs log.id "approved" userId now none)
        item.id ≤ item.total_metrado
      rw [apSum_update_approved s.dailyLogs log.id userId now item.id hall]
      exact hg.budget item hitem
  | reject log userId now reason hmem =>
    have hall := allPending_of_mem_pendingLogs hg hmem
    cases reason with
    | none => exact hg
    | some r =>
      by_cases hr : (r == "") = true
      · have h2 : handleRejectLog s.dailyLogs log.id userId now (some r)
            = s.dailyLogs := by
          simp [handleRejectLog, hr]
        rw [h2]
        exact hg
      · have h2 : handleRejectLog s.dailyLogs log.id userId now (some r)
            = updateLogStatus s.dailyLogs log.id "rejected" userId now (some r) := by
          simp [handleRejectLog, hr]
        rw [h2]
        constructor
        · exact hg.items_nodup
        · show ((updateLogStatus s.dailyLogs log.id "rejected" userId now
            (some r)).map fun l => l.id).Nodup
          rw [updateLogStatus_map_id]
          exact hg.logs_nodup
        · intro l2 hl2
          obtain ⟨l, hl, he⟩ := updateLogStatus_qty s.dailyLogs log.id
            "rejected" userId now (some r) l2 hl2
          rw [he]
          exact hg.qty_nonneg l hl
        · intro item hitem
          calc apSum (updateLogStatus s.dailyLogs log.id "rejected" userId now
              (some r)) item.id
              ≤ apSum s.dailyLogs item.id :=
                apSum_update_rejected_le s.dailyLogs log.id userId now (some r)
                  item.id hall hg.qty_nonneg
            _ ≤ item.total_metrado := hg.budget item hitem

/-- Well-formedness is preserved along every reachable sequence. -/
theorem reachable_goodState {s0 s : EngineState} (hr : Reachable s0 s)
    (h0 : GoodState s0) : GoodState s := by
  induction hr with
  | refl => exact h0
  | tail _ hstep ih => exact goodState_step hstep ih

end Erp

/-!
## Claim theorems
-/

namespace Erp

/-- C1: for every ledger state reachable from a well-formed state through
any sequence of daily-log submissions, approvals and rejections (as the
application exposes them), every BOQ item's approved sum plus pending sum
of executed quantity is at most its budgeted quantity `total_metrado`. -/
theorem c1_budget_invariant {s0 s : EngineState} (h0 : GoodState s0)
    (hr : Reachable s0 s) :
    ∀ item ∈ s.boqItems,
      sumQty s.dailyLogs item.id "approved"
        + sumQty s.dailyLogs item.id "pending" ≤ item.total_metrado :=
  fun item hitem => (reachable_goodState hr h0).budget item hitem

/-- C1 witness: the invariant instantiated at the concrete initial state
(`sampleItem`, no logs) and at `sampleItem`. -/
theorem c1_budget_invariant_witness :
    sumQty sampleState.dailyLogs sampleItem.id "approved"
      + sumQty sampleState.dailyLogs sampleItem.id "pending"
      ≤ sampleItem.total_metrado :=
  c1_budget_invariant
    ⟨by decide, by decide, by decide, by
      intro item hitem
      simp only [sampleState, List.mem_singleton] at hitem
      subst hitem
      norm_num [apSum, sumQty, sampleItem, sampleState]⟩
    Relation.ReflTransGen.refl sampleItem (by simp [sampleState])

/-- C2: a submission whose quantity exceeds the available amount
(`total_metrado` minus approved minus pending) fails with the over-budget
verdict, creates no daily log, and leaves the stored logs — hence the
approved and pending sums — unchanged. -/
theorem c2_overbudget_no_mutation (boqItems : List BoqItem)
    (dailyLogs : List DailyLog) (foremanId : String) (fd : LogData)
    (evidenceUrl : Option String) (newId : Nat) (boqItem : BoqItem)
    (hfind : boqItems.find? (fun b => b.id == fd.boqItemId) = some boqItem)
    (hover : boqItem.total_metrado - sumQty dailyLogs fd.boqItemId "approved"
        - sumQty dailyLogs fd.boqItemId "pending" < fd.quantityExecuted) :
    (handleSubmit boqItems dailyLogs foremanId fd evidenceUrl newId).1
        = .rejectedValidation (.overBudget
            (sumQty dailyLogs fd.boqItemId "approved"
              + sumQty dailyLogs fd.boqItemId "pending" + fd.quantityExecuted)
            boqItem.total_metrado)
      ∧ (handleSubmit boqItems dailyLogs foremanId fd evidenceUrl newId).2
        = dailyLogs := by
  have hv : validateQuantity boqItems dailyLogs (some fd.boqItemId)
      (some fd.quantityExecuted)
      = .overBudget
          (sumQty dailyLogs fd.boqItemId "approved"
            + sumQty dailyLogs fd.boqItemId "pending" + fd.quantityExecuted)
          boqItem.total_metrado := by
    simp only [validateQuantity, hfind]
    rw [if_pos (by linarith)]
  constructor
  · simp [handleSubmit, hv, isValid_overBudget]
  · simp [handleSubmit, hv, isValid_overBudget]

/-- C2 witness: Scenario A — budget 50, one pending log of 30, second
submission of 25 fails with available 20 and the ledger is unchanged. -/
theorem c2_overbudget_no_mutation_witness :
    (handleSubmit [sampleItem] [samplePendingLog] "f1" (sampleFd 25) none 2).1
        = .rejectedValidation (.overBudget
            (sumQty [samplePendingLog] (sampleFd 25).boqItemId "approved"
              + sumQty [samplePendingLog] (sampleFd 25).boqItemId "pending"
              + (sampleFd 25).quantityExecuted)
            sampleItem.total_metrado)
      ∧ (handleSubmit [sampleItem] [samplePendingLog] "f1" (sampleFd 25) none 2).2
        = [samplePendingLog] :=
  c2_overbudget_no_mutation [sampleItem] [samplePendingLog] "f1" (sampleFd 25)
    none 2 sampleItem (by rfl)
    (by
      simp [sumQty, sampleFd, samplePendingLog, sampleItem]
      norm_num)

/-- C9: with an empty BOQ-item selection or an empty quantity input,
`validateQuantity` answers `valid` at once, for every catalog and every set
of logs — the over-budget guard is reached only when both fields are
filled. -/
theorem c9_empty_fields_skip_validation (boqItems : List BoqItem)
    (dailyLogs : List DailyLog) (q : Option ℚ) (i : Option String) :
    validateQuantity boqItems dailyLogs none q = .valid none
      ∧ validateQuantity boqItems dailyLogs i none = .valid none := by
  constructor
  · cases q <;> rfl
  · cases i <;> rfl

end Erp

namespace Erp

/-- `applyStatusUpdate` always stores the requested status. -/
theorem applyStatusUpdate_status (status userId : String) (now : Nat)
    (ev : Option EvidenceUrls) (r : Requisition) :
    (applyStatusUpdate status userId now ev r).status = status := by
  simp only [applyStatusUpdate]
  split_ifs <;> rfl

/-- `applyStatusUpdate` never changes the row id. -/
theorem applyStatusUpdate_id (status userId : String) (now : Nat)
    (ev : Option EvidenceUrls) (r : Requisition) :
    (applyStatusUpdate status userId now ev r).id = r.id := by
  simp only [applyStatusUpdate]
  split_ifs <;> rfl

/-- The updated row is a member of `updateRequisitionStatus`'s result. -/
theorem applyStatusUpdate_mem (requisitions : List Requisition)
    (req : Requisition) (status userId : String) (now : Nat)
    (ev : Option EvidenceUrls) (hmem : req ∈ requisitions) :
    applyStatusUpdate status userId now ev req
      ∈ updateRequisitionStatus requisitions req.id status userId now ev := by
  unfold updateRequisitionStatus
  refine List.mem_map.2 ⟨req, hmem, ?_⟩
  simp

/-- Every row of the logistics purchase list has status `'to_buy'`. -/
theorem toBuyReqs_status (requisitions : List Requisition) :
    ∀ r ∈ toBuyReqs requisitions, r.status = "to_buy" := by
  intro r hr
  have h2 := List.mem_filter.1 hr
  simpa using h2.2

/-- With the invoice box ticked, `handlePurchase` records the purchase as
an unconditional update to `'in_transit'`. -/
theorem handlePurchase_recorded (requisitions : List Requisition)
    (reqId : Nat) (userId : String) (now : Nat) (documents : Documents)
    (hfact : documents.factura = true) :
    handlePurchase requisitions reqId userId now documents
      = (.recorded, updateRequisitionStatus requisitions reqId "in_transit"
          userId now (some {
            factura := if documents.factura then
              some ("FAC-" ++ toString now ++ ".pdf") else none
            guia_remision := if documents.guia then
              some ("GR-" ++ toString now ++ ".pdf") else none
            foto_material := if documents.foto then
              some ("FOTO-" ++ toString now ++ ".jpg") else none })) := by
  unfold handlePurchase
  rw [hfact]
  rfl

/-- C3 counterexample: a further reject call on an already-approved log
does not return an InvalidTransition and does not leave the log unchanged:
`updateLogStatus` simply overwrites the status. -/
theorem c3_counterexample :
    sampleApprovedLog.status = "approved"
      ∧ updateLogStatus [sampleApprovedLog] 2 "rejected" "e2" 7 (some "tarde")
        ≠ [sampleApprovedLog]
      ∧ (updateLogStatus [sampleApprovedLog] 2 "rejected" "e2" 7
          (some "tarde")).map (fun l => l.status) = ["rejected"] := by
  refine ⟨rfl, by decide, by decide⟩

/-- C3 (amended): `updateLogStatus` applies the requested status
unconditionally — whatever the log's current status, a further approve or
reject call overwrites it, with no InvalidTransition result — and one-way
behaviour is enforced only by the review screen, whose list holds solely
logs with status `'pending'`. -/
theorem c3_amended (dailyLogs : List DailyLog) (log : DailyLog)
    (status userId : String) (now : Nat) (reason : Option String)
    (hmem : log ∈ dailyLogs) :
    { log with
      status := status, reviewed_by := some userId,
      reviewed_at := some now, rejection_reason := reason }
        ∈ updateLogStatus dailyLogs log.id status userId now reason
      ∧ ∀ l ∈ pendingLogs dailyLogs, l.status = "pending" := by
  constructor
  · unfold updateLogStatus
    refine List.mem_map.2 ⟨log, hmem, ?_⟩
    simp
  · intro l hl
    have h2 := List.mem_filter.1 hl
    simpa using h2.2

/-- C3 witness: the amended statement at a concrete pending log. -/
theorem c3_amended_witness :
    { samplePendingLog with
      status := "approved", reviewed_by := some "e1",
      reviewed_at := some 5, rejection_reason := none }
        ∈ updateLogStatus [samplePendingLog] samplePendingLog.id "approved"
            "e1" 5 none
      ∧ ∀ l ∈ pendingLogs [samplePendingLog], l.status = "pending" :=
  c3_amended [samplePendingLog] samplePendingLog "approved" "e1" 5 none
    (by decide)

/-- C4 counterexample: `handlePurchase` invoked on a requisition still in
`'pending_pm'` (skipping `'to_buy'`) does not fail: with the invoice box
ticked it records the purchase and moves the requisition straight to
`'in_transit'`. -/
theorem c4_counterexample :
    (sampleReq "pending_pm").status = "pending_pm"
      ∧ (handlePurchase [sampleReq "pending_pm"] 1 "lg1" 9
          { factura := true, guia := false, foto := false }).1 = .recorded
      ∧ ((handlePurchase [sampleReq "pending_pm"] 1 "lg1" 9
          { factura := true, guia := false, foto := false }).2).map
            (fun r => r.status) = ["in_transit"] := by
  refine ⟨rfl, rfl, by decide⟩

/-- C4 (amended): neither `updateRequisitionStatus` nor `handlePurchase`
reads the requisition's current state, so an out-of-order transition does
not fail: with the invoice present, `handlePurchase` moves the requisition
with the given id to `'in_transit'` from any state, and no InvalidTransition
result exists; pipeline order is enforced only by the logistics screen,
which offers the purchase action solely for requisitions in `'to_buy'`. -/
theorem c4_amended (requisitions : List Requisition) (req : Requisition)
    (userId : String) (now : Nat) (documents : Documents)
    (hmem : req ∈ requisitions) (hfact : documents.factura = true) :
    (handlePurchase requisitions req.id userId now documents).1 = .recorded
      ∧ (∃ r2 ∈ (handlePurchase requisitions req.id userId now documents).2,
          r2.id = req.id ∧ r2.status = "in_transit")
      ∧ ∀ r ∈ toBuyReqs requisitions, r.status = "to_buy" := by
  rw [handlePurchase_recorded requisitions req.id userId now documents hfact]
  exact ⟨rfl,
    ⟨applyStatusUpdate "in_transit" userId now _ req,
      applyStatusUpdate_mem requisitions req "in_transit" userId now _ hmem,
      applyStatusUpdate_id _ _ _ _ _, applyStatusUpdate_status _ _ _ _ _⟩,
    toBuyReqs_status requisitions⟩

/-- C4 witness: the amended statement at a concrete requisition still in
`'pending_pm'`. -/
theorem c4_amended_witness :
    (handlePurchase [sampleReq "pending_pm"] (sampleReq "pending_pm").id "lg1" 9
        { factura := true, guia := false, foto := false }).1 = .recorded
      ∧ (∃ r2 ∈ (handlePurchase [sampleReq "pending_pm"]
          (sampleReq "pending_pm").id "lg1" 9
          { factura := true, guia := false, foto := false }).2,
          r2.id = (sampleReq "pending_pm").id ∧ r2.status = "in_transit")
      ∧ ∀ r ∈ toBuyReqs [sampleReq "pending_pm"], r.status = "to_buy" :=
  c4_amended [sampleReq "pending_pm"] (sampleReq "pending_pm") "lg1" 9
    { factura := true, guia := false, foto := false } (by decide) rfl

/-- C5: for a requisition in `'to_buy'`, recording a purchase without the
invoice fails (the `'La factura es requerida'` early return, the adapter
rendering of MissingRequiredEvidence) and mutates nothing, so the
requisition stays `'to_buy'`; with the invoice ticked the purchase is
recorded and the requisition moves to `'in_transit'`, whatever the waybill
and photo boxes hold. -/
theorem c5_invoice_evidence (requisitions : List Requisition)
    (req : Requisition) (userId : String) (now : Nat) (documents : Documents)
    (hmem : req ∈ requisitions) (hst : req.status = "to_buy") :
    (documents.factura = false →
        handlePurchase requisitions req.id userId now documents
            = (.missingRequiredEvidence, requisitions)
          ∧ req.status = "to_buy")
      ∧ (documents.factura = true →
        (handlePurchase requisitions req.id userId now documents).1 = .recorded
          ∧ ∃ r2 ∈ (handlePurchase requisitions req.id userId now documents).2,
              r2.id = req.id ∧ r2.status = "in_transit") := by
  constructor
  · intro hfact
    refine ⟨?_, hst⟩
    unfold handlePurchase
    rw [hfact]
    rfl
  · intro hfact
    rw [handlePurchase_recorded requisitions req.id userId now documents hfact]
    exact ⟨rfl,
      applyStatusUpdate "in_transit" userId now _ req,
      applyStatusUpdate_mem requisitions req "in_transit" userId now _ hmem,
      applyStatusUpdate_id _ _ _ _ _, applyStatusUpdate_status _ _ _ _ _⟩

/-- C5 witness: Scenario D — invoice absent, the purchase fails and the
concrete `'to_buy'` requisition is untouched. -/
theorem c5_invoice_evidence_witness :
    (({ factura := false, guia := false, foto := false } : Documents).factura
          = false →
        handlePurchase [sampleReq "to_buy"] (sampleReq "to_buy").id "lg1" 9
            { factura := false, guia := false, foto := false }
            = (.missingRequiredEvidence, [sampleReq "to_buy"])
          ∧ (sampleReq "to_buy").status = "to_buy")
      ∧ (({ factura := false, guia := false, foto := false } : Documents).factura
          = true →
        (handlePurchase [sampleReq "to_buy"] (sampleReq "to_buy").id "lg1" 9
            { factura := false, guia := false, foto := false }).1 = .recorded
          ∧ ∃ r2 ∈ (handlePurchase [sampleReq "to_buy"] (sampleReq "to_buy").id
              "lg1" 9 { factura := false, guia := false, foto := false }).2,
              r2.id = (sampleReq "to_buy").id ∧ r2.status = "in_transit") :=
  c5_invoice_evidence [sampleReq "to_buy"] (sampleReq "to_buy") "lg1" 9
    { factura := false, guia := false, foto := false } (by decide) rfl

end Erp

namespace Erp

/-- When the item is found and the budget comparison passes,
`validateQuantity` answers `valid` with the remaining amount. -/
theorem validateQuantity_valid_of_le (boqItems : List BoqItem)
    (dailyLogs : List DailyLog) (itemId : String) (q : ℚ) (boqItem : BoqItem)
    (hfind : boqItems.find? (fun b => b.id == itemId) = some boqItem)
    (hle : sumQty dailyLogs itemId "approved" + sumQty dailyLogs itemId "pending"
        + q ≤ boqItem.total_metrado) :
    validateQuantity boqItems dailyLogs (some itemId) (some q)
      = .valid (some (boqItem.total_metrado
          - (sumQty dailyLogs itemId "approved"
            + sumQty dailyLogs itemId "pending" + q))) := by
  simp only [validateQuantity, hfind]
  rw [if_neg (by linarith)]

/-- A submission whose validation succeeds creates the daily log. -/
theorem handleSubmit_of_valid (boqItems : List BoqItem)
    (dailyLogs : List DailyLog) (foremanId : String) (fd : LogData)
    (evidenceUrl : Option String) (newId : Nat) {r : Option ℚ}
    (hv : validateQuantity boqItems dailyLogs (some fd.boqItemId)
        (some fd.quantityExecuted) = .valid r) :
    handleSubmit boqItems dailyLogs foremanId fd evidenceUrl newId
      = (.submitted, createDailyLog dailyLogs newId foremanId fd evidenceUrl) := by
  simp [handleSubmit, hv, isValid_valid]

end Erp

namespace ErpLegacy

/-- C6 counterexample: with the report insert succeeding and the progress
update failing, the stored state is neither unchanged nor fully updated:
the report row stays while the partida's progress does not move — a
partial mutation. -/
theorem c6_counterexample :
    handleSubmit sampleLegacyState (some samplePartida) 10 true 7 true false
        ≠ sampleLegacyState
      ∧ handleSubmit sampleLegacyState (some samplePartida) 10 true 7 true false
        ≠ handleSubmit sampleLegacyState (some samplePartida) 10 true 7 true true
      ∧ (handleSubmit sampleLegacyState (some samplePartida) 10 true 7 true
          false).daily_reports.length = 1
      ∧ (handleSubmit sampleLegacyState (some samplePartida) 10 true 7 true
          false).partidas = sampleLegacyState.partidas := by
  have hval : validateSubmission
      (some { id := 1, current_progress := 0, total_budgeted := 50 }) 10 true
      = true := by
    simp only [validateSubmission]
    rw [if_neg (by norm_num)]
  have h1 : handleSubmit sampleLegacyState (some samplePartida) 10 true 7 true
      false
      = { daily_reports := [{ id := 7, partida_id := 1, progress_value := 10 }],
          partidas := [samplePartida] } := by
    simp [handleSubmit, hval, sampleLegacyState, samplePartida]
  have h2 : handleSubmit sampleLegacyState (some samplePartida) 10 true 7 true
      true
      = { daily_reports := [{ id := 7, partida_id := 1, progress_value := 10 }],
          partidas := [{ id := 1, current_progress := 0 + 10,
                         total_budgeted := 50 }] } := by
    simp [handleSubmit, hval, sampleLegacyState, samplePartida]
  refine ⟨?_, ?_, ?_, ?_⟩
  · rw [h1]
    simp [sampleLegacyState]
  · rw [h1, h2]
    norm_num [samplePartida]
  · rw [h1]
    rfl
  · rw [h1]
    rfl

/-- C6 (amended): the daily-report submission is two separate writes, not
one atomic operation. When validation fails or the insert fails, nothing
is written; when both writes succeed, the full operation applies (report
appended, partida progress advanced); but when the insert succeeds and the
progress update fails, the inserted report remains while the partida is
unchanged — the one failure path with a partial mutation. -/
theorem c6_amended (st : State) (p : Partida) (progress : ℚ)
    (validLabor : Bool) (newReportId : Nat) (insertOk updateOk : Bool) :
    (validateSubmission (some p) progress validLabor = false →
        handleSubmit st (some p) progress validLabor newReportId insertOk
          updateOk = st)
      ∧ (insertOk = false →
        handleSubmit st (some p) progress validLabor newReportId insertOk
          updateOk = st)
      ∧ (validateSubmission (some p) progress validLabor = true →
        insertOk = true → updateOk = true →
        handleSubmit st (some p) progress validLabor newReportId insertOk
            updateOk
          = { daily_reports := st.daily_reports
                ++ [{ id := newReportId, partida_id := p.id,
                      progress_value := progress }],
              partidas := st.partidas.map fun q =>
                if q.id == p.id then
                  { q with current_progress := p.current_progress + progress }
                else q })
      ∧ (validateSubmission (some p) progress validLabor = true →
        insertOk = true → updateOk = false →
        (handleSubmit st (some p) progress validLabor newReportId insertOk
            updateOk).daily_reports
          = st.daily_reports
            ++ [{ id := newReportId, partida_id := p.id,
                  progress_value := progress }]
          ∧ (handleSubmit st (some p) progress validLabor newReportId insertOk
              updateOk).partidas = st.partidas) := by
  refine ⟨fun hval => ?_, fun hins => ?_, fun hval hins hupd => ?_,
    fun hval hins hupd => ?_⟩
  · simp [handleSubmit, hval]
  · subst hins
    cases hval : validateSubmission (some p) progress validLabor <;>
      simp [handleSubmit, hval]
  · subst hins; subst hupd
    simp [handleSubmit, hval]
  · subst hins; subst hupd
    refine ⟨?_, ?_⟩ <;> simp [handleSubmit, hval]

end ErpLegacy

namespace Erp

/-- C7 counterexample: a daily-log submission with quantity 0 (admitted by
the quantity input's `min` 0) passes validation and creates a log, and
`createRequisition` inserts its record even at a negative quantity: no
strict-positivity check exists in either operation. -/
theorem c7_counterexample :
    (handleSubmit [sampleItem] [] "f1" (sampleFd 0) none 1).2.length = 1
      ∧ (sampleFd 0).quantityExecuted ≤ 0
      ∧ (createRequisition [] 1 "e1" (sampleReqForm (-5))).length = 1
      ∧ (sampleReqForm (-5)).quantity ≤ 0 := by
  have hv := validateQuantity_valid_of_le [sampleItem] [] (sampleFd 0).boqItemId
    (sampleFd 0).quantityExecuted sampleItem rfl
    (by norm_num [sumQty, sampleFd, sampleItem])
  rw [handleSubmit_of_valid [sampleItem] [] "f1" (sampleFd 0) none 1 hv]
  refine ⟨by simp [createDailyLog], by norm_num [sampleFd],
    by simp [createRequisition], by norm_num [sampleReqForm]⟩

/-- C7 (amended): neither operation requires a strictly positive quantity.
A daily-log submission is rejected only by the budget comparison — whenever
the item is found and `approved + pending + quantity ≤ total_metrado` the
log is created, also at quantity 0 or below — and `createRequisition`
always inserts its record, whatever the quantity (the forms' `min`
attributes are the only guards). -/
theorem c7_amended (boqItems : List BoqItem) (dailyLogs : List DailyLog)
    (foremanId : String) (fd : LogData) (evidenceUrl : Option String)
    (newId : Nat) (boqItem : BoqItem) (requisitions : List Requisition)
    (reqId : Nat) (userId : String) (reqData : ReqForm)
    (hfind : boqItems.find? (fun b => b.id == fd.boqItemId) = some boqItem)
    (hle : sumQty dailyLogs fd.boqItemId "approved"
        + sumQty dailyLogs fd.boqItemId "pending" + fd.quantityExecuted
        ≤ boqItem.total_metrado) :
    (handleSubmit boqItems dailyLogs foremanId fd evidenceUrl newId).1
        = .submitted
      ∧ (handleSubmit boqItems dailyLogs foremanId fd evidenceUrl newId).2.length
        = dailyLogs.length + 1
      ∧ (createRequisition requisitions reqId userId reqData).length
        = requisitions.length + 1 := by
  have hv := validateQuantity_valid_of_le boqItems dailyLogs fd.boqItemId
    fd.quantityExecuted boqItem hfind hle
  rw [handleSubmit_of_valid boqItems dailyLogs foremanId fd evidenceUrl newId hv]
  refine ⟨rfl, by simp [createDailyLog], by simp [createRequisition]⟩

/-- C7 witness: the amended statement at the quantity-0 submission. -/
theorem c7_amended_witness :
    (handleSubmit [sampleItem] [] "f1" (sampleFd 0) none 1).1 = .submitted
      ∧ (handleSubmit [sampleItem] [] "f1" (sampleFd 0) none 1).2.length
        = ([] : List DailyLog).length + 1
      ∧ (createRequisition [] 1 "e1" (sampleReqForm 0)).length
        = ([] : List Requisition).length + 1 :=
  c7_amended [sampleItem] [] "f1" (sampleFd 0) none 1 sampleItem [] 1 "e1"
    (sampleReqForm 0) rfl (by norm_num [sumQty, sampleFd, sampleItem])

/-- C8: each forward transition of `updateRequisitionStatus` sets exactly
the actor/timestamp pair of that transition: approval for purchase
(`'to_buy'`) sets only the approver pair, recording a purchase
(`'in_transit'`) only the purchaser pair, confirming receipt
(`'received'` or `'completed'`) only the receiver pair; the other two
pairs keep their stored values. -/
theorem c8_actor_timestamp_pairs (status userId : String) (now : Nat)
    (ev : Option EvidenceUrls) (r : Requisition) :
    (status = "to_buy" →
      (applyStatusUpdate status userId now ev r).approved_by = some userId
        ∧ (applyStatusUpdate status userId now ev r).approved_at = some now
        ∧ (applyStatusUpdate status userId now ev r).purchased_by = r.purchased_by
        ∧ (applyStatusUpdate status userId now ev r).purchased_at = r.purchased_at
        ∧ (applyStatusUpdate status userId now ev r).received_by = r.received_by
        ∧ (applyStatusUpdate status userId now ev r).received_at = r.received_at)
      ∧ (status = "in_transit" →
        (applyStatusUpdate status userId now ev r).approved_by = r.approved_by
          ∧ (applyStatusUpdate status userId now ev r).approved_at = r.approved_at
          ∧ (applyStatusUpdate status userId now ev r).purchased_by = some userId
          ∧ (applyStatusUpdate status userId now ev r).purchased_at = some now
          ∧ (applyStatusUpdate status userId now ev r).received_by = r.received_by
          ∧ (applyStatusUpdate status userId now ev r).received_at = r.received_at)
      ∧ (status = "received" ∨ status = "completed" →
        (applyStatusUpdate status userId now ev r).approved_by = r.approved_by
          ∧ (applyStatusUpdate status userId now ev r).approved_at = r.approved_at
          ∧ (applyStatusUpdate status userId now ev r).purchased_by = r.purchased_by
          ∧ (applyStatusUpdate status userId now ev r).purchased_at = r.purchased_at
          ∧ (applyStatusUpdate status userId now ev r).received_by = some userId
          ∧ (applyStatusUpdate status userId now ev r).received_at = some now) := by
  refine ⟨fun h => ?_, fun h => ?_, fun h => ?_⟩
  · subst h
    simp [applyStatusUpdate]
  · subst h
    simp [applyStatusUpdate]
  · rcases h with h | h <;> subst h <;> simp [applyStatusUpdate]

/-- C10: the two terminal requisition labels are treated identically where
they are inspected: `applyStatusUpdate` (the row update of
`updateRequisitionStatus`) produces for `'received'` exactly the record it
produces for `'completed'` up to the stored label itself, and the
logistics screen's completed list holds exactly the requisitions whose
status is `'completed'` or `'received'`. -/
theorem c10_terminal_labels :
    (∀ (userId : String) (now : Nat) (ev : Option EvidenceUrls)
        (r : Requisition),
      applyStatusUpdate "received" userId now ev r
        = { applyStatusUpdate "completed" userId now ev r with
            status := "received" })
      ∧ ∀ (requisitions : List Requisition) (r : Requisition),
          r ∈ completedReqs requisitions
            ↔ r ∈ requisitions
              ∧ (r.status = "completed" ∨ r.status = "received") := by
  constructor
  · intro userId now ev r
    simp [applyStatusUpdate]
  · intro requisitions r
    simp [completedReqs, List.mem_filter]

end Erp
